import Mathlib

/-!
Shallow embedding of the juicebox WiFi mode-arbitration daemon
(crates `wpa-events` and `wifi-handshake`), covering:

- the event model: `WpaState` / `WpaEvent` from
  `crates/wpa-events/src/event.rs`;
- the mode arbiter, mode switcher and debounce coordinator from
  `crates/wifi-handshake/src/runtime.rs` (`AutoAp::handle_state_change`,
  `AutoAp::configure_ap`, `AutoAp::configure_client`,
  `AutoAp::is_actually_connected_to_client`, `AutoAp::check_device_has_ip`,
  `AutoAp::reconfigure_wpa_supplicant_static`) together with the helpers
  `has_connected_stations` from `crates/wifi-handshake/src/utils.rs`.

Rust string scanning (`str::lines`, `starts_with`, `ends_with`, `contains`,
`trim`, `trim_end`, `split_whitespace`, `split('/')`) is embedded as
executable functions over `List Char` so that every predicate evaluates in
the kernel. Filesystem existence of the four files the daemon manipulates
(the per-interface network descriptor, its `~` backup, and the two sentinel
files `/var/run/autoAP.locked` / `/var/run/autoAP.unlock`) is a record of
four booleans; external command outcomes (rename, systemctl, wpa_cli, ip)
are inputs supplied by an environment record.
-/

namespace Rstr

/-- Rust `char::is_whitespace` restricted to the ASCII whitespace the daemon
ever meets (Lean's `Char.isWhitespace`: space, tab, CR, LF). -/
def isWs (c : Char) : Bool := c.isWhitespace

/-- Rust `str::starts_with` on character lists. -/
def startsWith (s p : List Char) : Bool := p.isPrefixOf s

/-- Rust `str::ends_with` on character lists. -/
def endsWith (s p : List Char) : Bool := p.isSuffixOf s

/-- Rust `str::contains` (substring search) on character lists. -/
def containsSub : List Char → List Char → Bool
  | s, p =>
    if p.isPrefixOf s then true
    else
      match s with
      | [] => false
      | _ :: t => containsSub t p

/-- Rust `str::trim_end`. -/
def trimEnd (s : List Char) : List Char := (s.reverse.dropWhile isWs).reverse

/-- Rust `str::trim_start`. -/
def trimStart (s : List Char) : List Char := s.dropWhile isWs

/-- Rust `str::trim`. -/
def trim (s : List Char) : List Char := trimEnd (trimStart s)

/-- Rust `str::split_whitespace` (no empty items). -/
def splitWs (s : List Char) : List (List Char) :=
  let step : Char → List (List Char) × List Char → List (List Char) × List Char :=
    fun c acc =>
      if isWs c then
        if acc.2.isEmpty then (acc.1, []) else (acc.2 :: acc.1, [])
      else (acc.1, c :: acc.2)
  let r := s.foldr step ([], [])
  if r.2.isEmpty then r.1 else r.2 :: r.1

/-- Rust `str::split(sep)` (keeps empty items). -/
def splitOnChar (sep : Char) (s : List Char) : List (List Char) :=
  s.foldr
    (fun c acc =>
      match acc with
      | cur :: rest => if c = sep then [] :: cur :: rest else (c :: cur) :: rest
      | [] => [[c]])
    [[]]

/-- A trailing carriage return is dropped (used for the `\r\n` line endings
that Rust `str::lines` strips). -/
def stripCr (l : List Char) : List Char :=
  if l.getLast? = some '\r' then l.dropLast else l

/-- Applies `f` to every element except the last one. -/
def mapInit (f : List Char → List Char) : List (List Char) → List (List Char)
  | [] => []
  | [a] => [a]
  | a :: b :: rest => f a :: mapInit f (b :: rest)

/-- Rust `str::lines`: split at `\n`, strip a `\r` that preceded a `\n`, and
drop the optional final empty line. -/
def lines (s : List Char) : List (List Char) :=
  let parts := mapInit stripCr (splitOnChar '\n' s)
  if parts.getLast? = some [] then parts.dropLast else parts

end Rstr

/-! ## Event model (`crates/wpa-events/src/event.rs`) -/

/-- Model of `WpaState` from `event.rs`: the six supplicant notification kinds. -/
inductive WpaState
  | apEnabled
  | apDisabled
  | connected
  | apStaConnected
  | apStaDisconnected
  | disconnected
deriving DecidableEq, Repr

/-- The `Display` impl for `WpaState` in `event.rs`. -/
def WpaState.toWireString : WpaState → String
  | .apEnabled => "AP-ENABLED"
  | .apDisabled => "AP-DISABLED"
  | .connected => "CONNECTED"
  | .apStaConnected => "AP-STA-CONNECTED"
  | .apStaDisconnected => "AP-STA-DISCONNECTED"
  | .disconnected => "DISCONNECTED"

/-- Model of `WpaState::from_str` in `event.rs`: exact, case-sensitive match of the
six wire literals; anything else is an error. -/
def WpaState.fromStr (s : String) : Except String WpaState :=
  match s with
  | "AP-ENABLED" => .ok .apEnabled
  | "AP-DISABLED" => .ok .apDisabled
  | "CONNECTED" => .ok .connected
  | "AP-STA-CONNECTED" => .ok .apStaConnected
  | "AP-STA-DISCONNECTED" => .ok .apStaDisconnected
  | "DISCONNECTED" => .ok .disconnected
  | other => .error ("Unrecognized WiFi state: " ++ other)

/-- Model of `WpaEvent` from `event.rs`. -/
structure WpaEvent where
  interface : String
  state : WpaState
  macAddress : Option String
deriving DecidableEq, Repr

/-- Model of `WpaEvent::from_args` in `event.rs`: argv is
`[binary_name, interface, state, mac?]`; fewer than 3 entries is an error,
the state token is parsed with `WpaState::from_str`, and entry 3 (if any)
becomes the MAC address. -/
def WpaEvent.fromArgs (args : List String) : Except String WpaEvent :=
  match args with
  | _ :: iface :: st :: rest =>
    match WpaState.fromStr st with
    | .ok w => .ok ⟨iface, w, rest.head?⟩
    | .error e => .error e
  | _ => .error "Insufficient arguments"

example : WpaEvent.fromArgs ["autoap", "wlan0", "CONNECTED", "aa:bb"] =
    .ok ⟨"wlan0", .connected, some "aa:bb"⟩ := rfl

example : (WpaEvent.fromArgs ["autoap", "wlan0"]).isOk = false := rfl

example : (WpaEvent.fromArgs ["autoap", "wlan0", "connected"]).isOk = false := rfl

/-! ## Runtime model (`crates/wifi-handshake/src/runtime.rs`) -/

/-- Model of `WifiState` from `runtime.rs` (the arbiter's own copy of the six event
kinds, parsed by its own `FromStr`). -/
inductive WifiState
  | apEnabled
  | apDisabled
  | connected
  | apStaConnected
  | apStaDisconnected
  | disconnected
deriving DecidableEq, Repr

/-- Existence of the four files the daemon manipulates for one interface:
`/etc/systemd/network/11-<iface>.network` (`networkFile`), its `~` backup
(`backupFile`), `/var/run/autoAP.locked` (`lockFile`) and
`/var/run/autoAP.unlock` (`unlockFile`). -/
structure FsState where
  networkFile : Bool
  backupFile : Bool
  lockFile : Bool
  unlockFile : Bool
deriving DecidableEq, Repr

/-- Outcome of running one external command: the spawn itself failed
(`Command::output()` returned `Err`), the command exited non-zero
(`!status.success()`), or it succeeded with the given stdout. -/
inductive CmdRes
  | spawnErr
  | exitErr
  | out (stdout : String)
deriving DecidableEq, Repr

/-- Environment of one synchronous transition: outcomes of the external
actions it may perform. `renameOk`: whether `fs::rename` of the descriptor
succeeds; `restartOk`: whether `restart_systemd_networkd` (the systemctl
interaction) succeeds; `statusRes`: result of `/sbin/wpa_cli -i dev status`;
`ipRes`: result of `ip addr show dev`; `touchOk`: whether creating the
unlock file succeeds. -/
structure Env where
  renameOk : Bool
  restartOk : Bool
  statusRes : CmdRes
  ipRes : CmdRes
  touchOk : Bool
deriving DecidableEq, Repr

/-- Counts of the observable side effects a transition performed:
entries into `configure_ap` / `configure_client`, invocations of
`restart_systemd_networkd`, `wpa_cli reconfigure` attempts, and the two
mode hooks. -/
structure Effects where
  apConfigs : Nat
  clientConfigs : Nat
  restarts : Nat
  reconfigures : Nat
  apHooks : Nat
  clientHooks : Nat
deriving DecidableEq, Repr

def Effects.zero : Effects := ⟨0, 0, 0, 0, 0, 0⟩

/-- Result of one synchronous transition: `ok` is whether the Rust function
returned `Ok(())` (errors are propagated with `?`), `fs` the file state at
return, `eff` the side effects performed. -/
structure StepOut where
  ok : Bool
  fs : FsState
  eff : Effects
deriving DecidableEq, Repr

/-- The `has_ssid` scan in `AutoAp::is_actually_connected_to_client`
(runtime.rs lines 210-212): some status line starts with `ssid=` and does
not, after trimming trailing whitespace, end with `=`. -/
def hasSsid (status : String) : Bool :=
  (Rstr.lines status.toList).any fun line =>
    Rstr.startsWith line "ssid=".toList &&
      !(Rstr.endsWith (Rstr.trimEnd line) "=".toList)

/-- The `wpa_state_completed` scan (runtime.rs lines 214-216): some status
line starts with `wpa_state=` and mentions `COMPLETED`. -/
def wpaStateCompleted (status : String) : Bool :=
  (Rstr.lines status.toList).any fun line =>
    Rstr.startsWith line "wpa_state=".toList &&
      Rstr.containsSub line "COMPLETED".toList

/-- The `not_in_ap_mode` scan (runtime.rs lines 222-224): no status line
mentions `mode=AP` or `wpa_state=INTERFACE_DISABLED`. -/
def notInApMode (status : String) : Bool :=
  !((Rstr.lines status.toList).any fun line =>
    Rstr.containsSub line "mode=AP".toList ||
      Rstr.containsSub line "wpa_state=INTERFACE_DISABLED".toList)

/-- One line of the inner scan of `AutoAp::check_device_has_ip`
(runtime.rs lines 252-263): the trimmed line starts with `inet `, the line
does not mention `127.0.0.1`, and the address part (second whitespace
token, before any `/`) does not start with `169.254.`. -/
def lineHasValidIp (line : List Char) : Bool :=
  if Rstr.startsWith (Rstr.trim line) "inet ".toList &&
      !(Rstr.containsSub line "127.0.0.1".toList) then
    match (Rstr.splitWs (Rstr.trim line)).get? 1 with
    | some ipPart =>
      match (Rstr.splitOnChar '/' ipPart).head? with
      | some ip => !(Rstr.startsWith ip "169.254.".toList)
      | none => false
    | none => false
  else false

/-- Model of `AutoAp::check_device_has_ip` applied to the stdout of `ip addr show`. -/
def hasValidIp (ipOut : String) : Bool :=
  (Rstr.lines ipOut.toList).any lineHasValidIp

/-- Model of `AutoAp::check_device_has_ip` on a command result, as consumed by its
caller: a spawn failure is swallowed by `.unwrap_or(false)`, a non-zero exit
yields `Ok(false)`, otherwise the stdout is scanned. -/
def checkDeviceHasIp (r : CmdRes) : Bool :=
  match r with
  | .out s => hasValidIp s
  | _ => false

/-- Model of `AutoAp::is_actually_connected_to_client` (runtime.rs lines 195-236):
a spawn failure of the status query is a propagated error; a non-zero exit
is `Ok(false)`; otherwise the conjunction of the four indicator scans, in
the source's order `has_ssid && has_ip_address && wpa_state_completed &&
not_in_ap_mode`. -/
def isActuallyConnectedToClient (status ip : CmdRes) : Except Unit Bool :=
  match status with
  | .spawnErr => .error ()
  | .exitErr => .ok false
  | .out s =>
    .ok (hasSsid s && checkDeviceHasIp ip && wpaStateCompleted s && notInApMode s)

/-- Model of `AutoAp::configure_ap` (runtime.rs lines 272-297): if the active
descriptor exists, rename it to the backup path (failure is a propagated
error), restart systemd-networkd (failure propagated), attempt
`wpa_cli reconfigure` (failure swallowed), attempt the AP-mode hook
(failure swallowed). If the active descriptor is absent, do nothing. -/
def configureAp (fs : FsState) (env : Env) : StepOut :=
  if fs.networkFile then
    if env.renameOk then
      let fs1 : FsState := { fs with networkFile := false, backupFile := true }
      if env.restartOk then
        ⟨true, fs1,
          { Effects.zero with apConfigs := 1, restarts := 1, reconfigures := 1, apHooks := 1 }⟩
      else
        ⟨false, fs1, { Effects.zero with apConfigs := 1, restarts := 1 }⟩
    else
      ⟨false, fs, { Effects.zero with apConfigs := 1 }⟩
  else
    ⟨true, fs, { Effects.zero with apConfigs := 1 }⟩

/-- Model of `AutoAp::configure_client` (runtime.rs lines 299-318): if the backup
descriptor exists, rename it back to the active path (failure propagated),
restart systemd-networkd (failure propagated), attempt the client-mode hook
(failure swallowed). If the backup is absent, do nothing. -/
def configureClient (fs : FsState) (env : Env) : StepOut :=
  if fs.backupFile then
    if env.renameOk then
      let fs1 : FsState := { fs with networkFile := true, backupFile := false }
      if env.restartOk then
        ⟨true, fs1,
          { Effects.zero with clientConfigs := 1, restarts := 1, clientHooks := 1 }⟩
      else
        ⟨false, fs1, { Effects.zero with clientConfigs := 1, restarts := 1 }⟩
    else
      ⟨false, fs, { Effects.zero with clientConfigs := 1 }⟩
  else
    ⟨true, fs, { Effects.zero with clientConfigs := 1 }⟩

/-- Model of `AutoAp::is_client` (runtime.rs lines 190-193): the active descriptor
exists. -/
def isClient (fs : FsState) : Bool := fs.networkFile

/-- Model of `AutoAp::handle_state_change` (runtime.rs lines 86-161), its
synchronous part. The `ApEnabled` and `ApStaDisconnected` branches
additionally spawn a background `reconfigure_wpa_supplicant_static` task,
modelled as a separate `Act.wait` step. The `ApStaConnected` branch touches
the unlock file, with a failure only logged. -/
def handleStateChange (fs : FsState) (state : WifiState) (env : Env) : StepOut :=
  match state with
  | .apEnabled => configureAp fs env
  | .apDisabled => ⟨true, fs, Effects.zero⟩
  | .connected =>
    match isActuallyConnectedToClient env.statusRes env.ipRes with
    | .error _ => ⟨false, fs, Effects.zero⟩
    | .ok true => configureClient fs env
    | .ok false => ⟨true, fs, Effects.zero⟩
  | .apStaDisconnected => ⟨true, fs, Effects.zero⟩
  | .apStaConnected =>
    ⟨true, { fs with unlockFile := fs.unlockFile || env.touchOk }, Effects.zero⟩
  | .disconnected =>
    if isClient fs then configureAp fs env else ⟨true, fs, Effects.zero⟩

/-- Model of `has_connected_stations` from `utils.rs` (lines 166-174): a failed
`wpa_cli all_sta` (spawn failure or non-zero exit) yields `false`;
otherwise whether the trimmed stdout is non-empty. -/
def hasConnectedStations (r : CmdRes) : Bool :=
  match r with
  | .out s => !(Rstr.trim s.toList).isEmpty
  | _ => false

/-- Whether an external touch of the unlock file at second `t` is visible
to the in-loop existence check performed at second `time`: the touch
happened strictly before the check. -/
def touchSeen (touch : Option Nat) (time : Nat) : Bool :=
  match touch with
  | some t => decide (t < time)
  | none => false

/-- The poll loop of `AutoAp::reconfigure_wpa_supplicant_static`
(runtime.rs lines 391-400): each iteration sleeps one second and then
checks for the unlock file; returns `some e` with the elapsed seconds on
early cancellation, `none` on full expiry. `remaining` is the number of
iterations still to run, `elapsed` the seconds slept so far. -/
def waitLoop (touch : Option Nat) : Nat → Nat → Option Nat
  | 0, _ => none
  | r + 1, e =>
    if touchSeen touch (e + 1) then some (e + 1) else waitLoop touch r (e + 1)

/-- Result of one `reconfigure_wpa_supplicant_static` run: final sentinel
file state (mode descriptor files are never touched by it), number of
`wpa_cli reconfigure` attempts, seconds slept, and which return path was
taken (`superseded`: the lock file already existed; `cancelled`: the unlock
file appeared during the loop). -/
structure WaitOut where
  fs : FsState
  reconfigures : Nat
  elapsed : Nat
  superseded : Bool
  cancelled : Bool
deriving DecidableEq, Repr

/-- Model of `AutoAp::reconfigure_wpa_supplicant_static` (runtime.rs lines 368-417).
If the lock file exists the unlock file is created and the call returns at
once. Otherwise the lock file is created, a stale unlock file removed, and
the loop `for _i in 0..=wait_seconds` runs (`wait_seconds + 1` one-second
iterations); on cancellation both sentinel files are removed; on expiry
both sentinel files are removed and `wpa_cli reconfigure` is attempted
exactly once if `has_connected_stations` reports none. Sentinel file
creation and removal are modelled as succeeding. `touch` is the second at
which some other process touches the unlock file, if any; `allSta` the
result of `wpa_cli all_sta`. -/
def reconfigureWpaSupplicantStatic (fs : FsState) (waitSeconds : Nat)
    (touch : Option Nat) (allSta : CmdRes) : WaitOut :=
  if fs.lockFile then
    ⟨{ fs with unlockFile := true }, 0, 0, true, false⟩
  else
    let fs1 : FsState := { fs with lockFile := true, unlockFile := false }
    match waitLoop touch (waitSeconds + 1) 0 with
    | some e => ⟨{ fs1 with lockFile := false, unlockFile := false }, 0, e, false, true⟩
    | none =>
      ⟨{ fs1 with lockFile := false, unlockFile := false },
        if hasConnectedStations allSta then 0 else 1, waitSeconds + 1, false, false⟩

/-- One completed step of the system for a single interface: either the
synchronous part of `handle_state_change` for one event, or one spawned
`reconfigure_wpa_supplicant_static` run. -/
inductive Act
  | ev (st : WifiState) (env : Env)
  | wait (seconds : Nat) (touch : Option Nat) (allSta : CmdRes)

/-- File state after one step. -/
def stepFs (fs : FsState) : Act → FsState
  | .ev st env => (handleStateChange fs st env).fs
  | .wait n touch sta => (reconfigureWpaSupplicantStatic fs n touch sta).fs

/-- The Mode Flag invariant: exactly one of the active descriptor and its
backup exists. -/
def exactlyOneDescriptor (fs : FsState) : Bool :=
  fs.networkFile != fs.backupFile

example :
    reconfigureWpaSupplicantStatic ⟨true, false, false, false⟩ 2 none (.out "") =
      ⟨⟨true, false, false, false⟩, 1, 3, false, false⟩ := rfl

example :
    reconfigureWpaSupplicantStatic ⟨true, false, false, false⟩ 2 (some 1) (.out "") =
      ⟨⟨true, false, false, false⟩, 0, 2, false, true⟩ := rfl

example :
    reconfigureWpaSupplicantStatic ⟨true, false, true, false⟩ 2 none (.out "") =
      ⟨⟨true, false, true, true⟩, 0, 0, true, false⟩ := rfl

example : hasSsid "bssid=aa\nssid=HomeNet\nwpa_state=COMPLETED" = true := by decide

example : hasSsid "ssid=\nwpa_state=COMPLETED" = false := by decide

example : hasValidIp "    inet 169.254.12.7/16 brd 169.254.255.255 scope link wlan0" = false := by
  decide

example : hasValidIp "    inet 192.168.1.23/24 brd 192.168.1.255 scope global wlan0" = true := by
  decide

example : hasValidIp "    inet 127.0.0.1/8 scope host lo" = false := by decide

/-! ## Helper lemmas -/

/-- A concrete environment where every external action succeeds and every
query returns empty output. -/
def envAllOk : Env := ⟨true, true, .out "", .out "", true⟩

/-- The file state of an interface in client mode with no sentinel files. -/
def fsClientMode : FsState := ⟨true, false, false, false⟩

/-- The file state of an interface in AP mode with no sentinel files. -/
def fsApMode : FsState := ⟨false, true, false, false⟩

theorem configureAp_preserves (fs : FsState) (env : Env)
    (h : exactlyOneDescriptor fs = true) :
    exactlyOneDescriptor (configureAp fs env).fs = true := by
  rcases fs with ⟨nf, bf, lf, uf⟩
  rcases env with ⟨ren, res, st, ip, tk⟩
  cases nf <;> cases bf <;> cases ren <;> cases res <;>
    simp_all [configureAp, exactlyOneDescriptor]

theorem configureClient_preserves (fs : FsState) (env : Env)
    (h : exactlyOneDescriptor fs = true) :
    exactlyOneDescriptor (configureClient fs env).fs = true := by
  rcases fs with ⟨nf, bf, lf, uf⟩
  rcases env with ⟨ren, res, st, ip, tk⟩
  cases nf <;> cases bf <;> cases ren <;> cases res <;>
    simp_all [configureClient, exactlyOneDescriptor]

theorem wait_fs_descriptors (fs : FsState) (n : Nat) (touch : Option Nat)
    (sta : CmdRes) :
    (reconfigureWpaSupplicantStatic fs n touch sta).fs.networkFile = fs.networkFile ∧
    (reconfigureWpaSupplicantStatic fs n touch sta).fs.backupFile = fs.backupFile := by
  unfold reconfigureWpaSupplicantStatic
  cases hl : fs.lockFile <;> simp [hl]
  cases hw : waitLoop touch (n + 1) 0 <;> simp [hw]

theorem step_preserves (fs : FsState) (a : Act)
    (h : exactlyOneDescriptor fs = true) :
    exactlyOneDescriptor (stepFs fs a) = true := by
  cases a with
  | wait n touch sta =>
    have hd := wait_fs_descriptors fs n touch sta
    simp only [stepFs, exactlyOneDescriptor] at *
    rw [hd.1, hd.2]
    exact h
  | ev st env =>
    cases st with
    | apEnabled => exact configureAp_preserves fs env h
    | apDisabled => exact h
    | apStaDisconnected => exact h
    | apStaConnected =>
      simpa [stepFs, handleStateChange, exactlyOneDescriptor] using h
    | disconnected =>
      simp only [stepFs, handleStateChange]
      cases hc : isClient fs <;> simp [hc]
      · exact h
      · exact configureAp_preserves fs env h
    | connected =>
      simp only [stepFs, handleStateChange]
      cases hic : isActuallyConnectedToClient env.statusRes env.ipRes with
      | error u => simpa [hic] using h
      | ok b =>
        cases b <;> simp [hic]
        · exact h
        · exact configureClient_preserves fs env h

/-! ## C1: Mode Flag invariant -/

/-- C1: for every sequence of completed transitions on a single interface
(synchronous event handling and spawned reconfigure-wait runs, under any
outcomes of the external actions), starting from a state in which exactly
one of the active client descriptor and its backup-suffixed path exists,
after every completed transition exactly one of the two exists — never
both, never neither. -/
theorem modeFlag_invariant (acts : List Act) (fs0 : FsState)
    (h : exactlyOneDescriptor fs0 = true) :
    exactlyOneDescriptor (acts.foldl stepFs fs0) = true := by
  induction acts generalizing fs0 with
  | nil => exact h
  | cons a rest ih => exact ih (stepFs fs0 a) (step_preserves fs0 a h)

/-- Witness for C1 at a concrete trace: client mode, then `AP-ENABLED`,
then the spawned wait, then a verified `CONNECTED`. -/
theorem modeFlag_invariant_witness :
    exactlyOneDescriptor fsClientMode = true ∧
    exactlyOneDescriptor
      (([Act.ev .apEnabled envAllOk, Act.wait 2 none (.out ""),
         Act.ev .connected envAllOk] : List Act).foldl stepFs fsClientMode) = true :=
  ⟨by decide, modeFlag_invariant _ fsClientMode (by decide)⟩

/-! ## C7: switch_to_ap idempotence -/

/-- C7: calling `configure_ap` twice in a row is idempotent: whenever the
first call completes without error, the second call finds the active
descriptor absent, leaves the filesystem state unchanged, performs no
rename, restart, reconfigure or hook, and returns without error. -/
theorem switch_to_ap_idempotent (fs : FsState) (env env2 : Env)
    (h : (configureAp fs env).ok = true) :
    (configureAp fs env).fs.networkFile = false ∧
    configureAp (configureAp fs env).fs env2 =
      ⟨true, (configureAp fs env).fs, { Effects.zero with apConfigs := 1 }⟩ := by
  rcases fs with ⟨nf, bf, lf, uf⟩
  rcases env with ⟨ren, res, st, ip, tk⟩
  cases nf <;> cases ren <;> cases res <;>
    simp_all [configureAp]

/-- Witness for C7 at a concrete input: client mode, all actions succeed. -/
theorem switch_to_ap_idempotent_witness :
    (configureAp fsClientMode envAllOk).ok = true ∧
    ((configureAp fsClientMode envAllOk).fs.networkFile = false ∧
      configureAp (configureAp fsClientMode envAllOk).fs envAllOk =
        ⟨true, (configureAp fsClientMode envAllOk).fs,
          { Effects.zero with apConfigs := 1 }⟩) :=
  ⟨by decide, switch_to_ap_idempotent fsClientMode envAllOk envAllOk (by decide)⟩

/-! ## C3: is the service restart re-attempted on a no-op rename? -/

/-- Counterexample to C3: with the interface already in AP mode,
`configure_ap` completes without error but performs zero service restarts,
and symmetrically for `configure_client` in client mode — the restart is
not re-attempted when the rename is a no-op, contrary to the claim. -/
theorem restart_noop_counterexample :
    (configureAp fsApMode envAllOk).ok = true ∧
    (configureAp fsApMode envAllOk).eff.restarts = 0 ∧
    (configureClient fsClientMode envAllOk).ok = true ∧
    (configureClient fsClientMode envAllOk).eff.restarts = 0 := by decide

/-- C3 as amended: `configure_ap` / `configure_client` attempt the network
service restart only when the descriptor rename actually occurs; when the
interface is already in the target mode the invocation is a complete no-op
(no restart, no state change, no error). -/
theorem restart_only_on_rename (fs : FsState) (env : Env) :
    (fs.networkFile = false →
      configureAp fs env = ⟨true, fs, { Effects.zero with apConfigs := 1 }⟩) ∧
    (fs.backupFile = false →
      configureClient fs env = ⟨true, fs, { Effects.zero with clientConfigs := 1 }⟩) ∧
    (1 ≤ (configureAp fs env).eff.restarts →
      fs.networkFile = true ∧ env.renameOk = true) ∧
    (1 ≤ (configureClient fs env).eff.restarts →
      fs.backupFile = true ∧ env.renameOk = true) := by
  rcases fs with ⟨nf, bf, lf, uf⟩
  rcases env with ⟨ren, res, st, ip, tk⟩
  cases nf <;> cases bf <;> cases ren <;> cases res <;>
    simp_all [configureAp, configureClient, Effects.zero]

/-- Witness for C3's amended statement at a concrete input. -/
theorem restart_only_on_rename_witness :
    fsApMode.networkFile = false ∧
    configureAp fsApMode envAllOk =
      ⟨true, fsApMode, { Effects.zero with apConfigs := 1 }⟩ :=
  ⟨by decide, (restart_only_on_rename fsApMode envAllOk).1 (by decide)⟩

/-! ## C9: rename failure is fatal and effect-free -/

/-- C9: if the descriptor rename inside `configure_ap` or
`configure_client` fails, the error is propagated for that invocation, the
Mode Flag files remain exactly as they were, and none of the subsequent
side effects of the switch (service restart, reconfigure, hooks) are
performed. -/
theorem rename_failure_fatal (fs : FsState) (env : Env)
    (hren : env.renameOk = false) :
    (fs.networkFile = true →
      configureAp fs env = ⟨false, fs, { Effects.zero with apConfigs := 1 }⟩) ∧
    (fs.backupFile = true →
      configureClient fs env = ⟨false, fs, { Effects.zero with clientConfigs := 1 }⟩) := by
  rcases fs with ⟨nf, bf, lf, uf⟩
  rcases env with ⟨ren, res, st, ip, tk⟩
  cases nf <;> cases bf <;> simp_all [configureAp, configureClient, Effects.zero]

/-- Witness for C9 at a concrete input: client mode, rename fails. -/
theorem rename_failure_fatal_witness :
    (⟨false, true, .out "", .out "", true⟩ : Env).renameOk = false ∧
    fsClientMode.networkFile = true ∧
    configureAp fsClientMode ⟨false, true, .out "", .out "", true⟩ =
      ⟨false, fsClientMode, { Effects.zero with apConfigs := 1 }⟩ :=
  ⟨by decide, by decide,
    (rename_failure_fatal fsClientMode ⟨false, true, .out "", .out "", true⟩ rfl).1 rfl⟩

/-! ## C2, C4, C5: the debounce coordinator -/

theorem waitLoop_none : ∀ (r e : Nat), waitLoop none r e = none := by
  intro r
  induction r with
  | zero => intro e; rfl
  | succ r ih => intro e; simp [waitLoop, touchSeen, ih]

theorem waitLoop_finds (t : Nat) :
    ∀ (r e : Nat), t ≤ e + r → (waitLoop (some t) (r + 1) e).isSome = true := by
  intro r
  induction r with
  | zero =>
    intro e h
    simp only [waitLoop, touchSeen]
    have : t < e + 1 := by omega
    simp [this]
  | succ r ih =>
    intro e h
    by_cases hc : t < e + 1
    · simp [waitLoop, touchSeen, hc]
    · have h2 : t ≤ (e + 1) + r := by omega
      simpa [waitLoop, touchSeen, hc] using ih (e + 1) h2

/-- Counterexample to C2: with no lock present, `enable_wait = 2` and no
cancellation, the run sleeps 3 seconds (the loop `0..=2` is inclusive, so
it performs `N + 1` one-second iterations), not the 2 seconds the claim
states. -/
theorem wait_duration_counterexample :
    (reconfigureWpaSupplicantStatic fsClientMode 2 none (.out "")).elapsed = 3 ∧
    (reconfigureWpaSupplicantStatic fsClientMode 2 none (.out "")).elapsed ≠ 2 := by
  decide

/-- C2 as amended: an uncancelled `reconfigure_wpa_supplicant_static`
run that starts with no locked sentinel present performs its 1 Hz poll
loop for `N + 1` one-second iterations (the Rust loop bound `0..=N` is
inclusive), returns after `N + 1` seconds having removed both sentinel
files, and then issues the supplicant reconfigure command exactly once if
the `all_sta` station query reports no attached stations (and not at all
if it reports some). -/
theorem uncancelled_wait_full_run (fs : FsState) (n : Nat) (sta : CmdRes)
    (h : fs.lockFile = false) :
    reconfigureWpaSupplicantStatic fs n none sta =
      ⟨{ fs with lockFile := false, unlockFile := false },
        if hasConnectedStations sta then 0 else 1, n + 1, false, false⟩ := by
  simp [reconfigureWpaSupplicantStatic, h, waitLoop_none]

/-- Witness for C2's amended statement: no lock, `enable_wait = 2`, empty
`all_sta` output — the run takes 3 seconds, clears both sentinels and
reconfigures exactly once. -/
theorem uncancelled_wait_full_run_witness :
    fsClientMode.lockFile = false ∧
    reconfigureWpaSupplicantStatic fsClientMode 2 none (.out "") =
      ⟨{ fsClientMode with lockFile := false, unlockFile := false },
        if hasConnectedStations (.out "") then 0 else 1, 3, false, false⟩ :=
  ⟨rfl, uncancelled_wait_full_run fsClientMode 2 (.out "") rfl⟩

/-- C4: if the locked sentinel already exists when
`reconfigure_wpa_supplicant_static` is invoked, the invocation creates the
unlock sentinel and returns immediately — zero seconds slept, no loop
iteration, no reconfigure — superseding the wait in progress rather than
queueing or blocking. -/
theorem locked_wait_superseded (fs : FsState) (n : Nat) (touch : Option Nat)
    (sta : CmdRes) (h : fs.lockFile = true) :
    reconfigureWpaSupplicantStatic fs n touch sta =
      ⟨{ fs with unlockFile := true }, 0, 0, true, false⟩ := by
  simp [reconfigureWpaSupplicantStatic, h]

/-- Witness for C4 at a concrete input: lock present, `N = 300`. -/
theorem locked_wait_superseded_witness :
    (⟨true, false, true, false⟩ : FsState).lockFile = true ∧
    reconfigureWpaSupplicantStatic ⟨true, false, true, false⟩ 300 none (.out "") =
      ⟨⟨true, false, true, true⟩, 0, 0, true, false⟩ :=
  ⟨rfl, locked_wait_superseded ⟨true, false, true, false⟩ 300 none (.out "") rfl⟩

/-- C5: if the unlock sentinel is touched within `N` seconds of an
uncancelled `reconfigure_wpa_supplicant_static(iface, N)` run having
started (for example by an `ApStaConnected` event), the wait returns early
on the cancellation path with both sentinel files removed, and the
supplicant reconfigure command is never issued by that run. -/
theorem unlock_within_window_cancels (fs : FsState) (n t : Nat) (sta : CmdRes)
    (h : fs.lockFile = false) (ht : t ≤ n) :
    (reconfigureWpaSupplicantStatic fs n (some t) sta).cancelled = true ∧
    (reconfigureWpaSupplicantStatic fs n (some t) sta).fs.lockFile = false ∧
    (reconfigureWpaSupplicantStatic fs n (some t) sta).fs.unlockFile = false ∧
    (reconfigureWpaSupplicantStatic fs n (some t) sta).reconfigures = 0 := by
  have hs : (waitLoop (some t) (n + 1) 0).isSome = true :=
    waitLoop_finds t n 0 (by omega)
  obtain ⟨e, he⟩ := Option.isSome_iff_exists.mp hs
  simp [reconfigureWpaSupplicantStatic, h, he]

/-- Witness for C5: `enable_wait = 2`, a station connects at second 1 —
the wait is cancelled, the sentinels are gone, no reconfigure fires. -/
theorem unlock_within_window_cancels_witness :
    fsApMode.lockFile = false ∧ 1 ≤ 2 ∧
    ((reconfigureWpaSupplicantStatic fsApMode 2 (some 1) (.out "")).cancelled = true ∧
      (reconfigureWpaSupplicantStatic fsApMode 2 (some 1) (.out "")).fs.lockFile = false ∧
      (reconfigureWpaSupplicantStatic fsApMode 2 (some 1) (.out "")).fs.unlockFile = false ∧
      (reconfigureWpaSupplicantStatic fsApMode 2 (some 1) (.out "")).reconfigures = 0) :=
  ⟨rfl, by decide, unlock_within_window_cancels fsApMode 2 1 (.out "") rfl (by decide)⟩

/-! ## C6: a Connected event switches mode only when verified -/

theorem configureClient_entry (fs : FsState) (env : Env) :
    (configureClient fs env).eff.clientConfigs = 1 := by
  rcases fs with ⟨nf, bf, lf, uf⟩
  rcases env with ⟨ren, res, st, ip, tk⟩
  cases bf <;> cases ren <;> cases res <;> simp [configureClient, Effects.zero]

/-- C6: a `Connected` event triggers `configure_client` only when all four
conditions hold simultaneously: the live status query succeeded and
reports a non-empty SSID, the authentication state is COMPLETED, the
interface has a non-link-local non-loopback address bound, and no AP-mode
indicator appears in the status output. In particular, whenever the
address check fails (for example when the only address is link-local), the
handler leaves the file state unchanged and never enters
`configure_client`. -/
theorem connected_switch_requires_all_conditions (fs : FsState) (env : Env) :
    (1 ≤ (handleStateChange fs .connected env).eff.clientConfigs →
      ∃ s, env.statusRes = CmdRes.out s ∧ hasSsid s = true ∧
        wpaStateCompleted s = true ∧ checkDeviceHasIp env.ipRes = true ∧
        notInApMode s = true) ∧
    (checkDeviceHasIp env.ipRes = false →
      (handleStateChange fs .connected env).fs = fs ∧
      (handleStateChange fs .connected env).eff.clientConfigs = 0) := by
  cases hst : env.statusRes with
  | spawnErr =>
    simp [handleStateChange, isActuallyConnectedToClient, hst, Effects.zero]
  | exitErr =>
    simp [handleStateChange, isActuallyConnectedToClient, hst, Effects.zero]
  | out s =>
    cases hb : (hasSsid s && checkDeviceHasIp env.ipRes && wpaStateCompleted s && notInApMode s) with
    | false =>
      simp [handleStateChange, isActuallyConnectedToClient, hst, hb, Effects.zero]
    | true =>
      simp only [handleStateChange, isActuallyConnectedToClient, hst, hb]
      simp only [Bool.and_eq_true] at hb
      constructor
      · intro _
        exact ⟨s, rfl, hb.1.1.1, hb.1.2, hb.1.1.2, hb.2⟩
      · intro hip
        exact absurd hb.1.1.2 (by simp [hip])

/-- A status output reporting an SSID and a completed handshake, paired
with an `ip addr` output whose only address is link-local. -/
def envLinkLocal : Env :=
  ⟨true, true, .out "ssid=HomeNet\nwpa_state=COMPLETED\nmode=station",
    .out "    inet 169.254.12.7/16 brd 169.254.255.255 scope link wlan0", true⟩

/-- Witness for C6: status reports an SSID but the only bound address is
link-local — no mode switch is triggered. -/
theorem connected_switch_requires_all_conditions_witness :
    hasSsid "ssid=HomeNet\nwpa_state=COMPLETED\nmode=station" = true ∧
    checkDeviceHasIp envLinkLocal.ipRes = false ∧
    ((handleStateChange fsApMode .connected envLinkLocal).fs = fsApMode ∧
      (handleStateChange fsApMode .connected envLinkLocal).eff.clientConfigs = 0) :=
  ⟨by decide, by decide,
    (connected_switch_requires_all_conditions fsApMode envLinkLocal).2 (by decide)⟩

/-! ## C8: the event-parsing contract -/

/-- C8: `WpaEvent::from_args` fails exactly when fewer than 2 meaningful
tokens follow the program name (argv shorter than 3) or when the state
token is not an exact case-sensitive match of one of the six known
literals; otherwise it returns a `WpaEvent` whose interface is the first
token, whose state is the parsed second token, and whose MAC address is
the optional third token. -/
theorem from_args_contract (args : List String) :
    ((WpaEvent.fromArgs args).isOk = true ↔
      ∃ st w, args.get? 2 = some st ∧ WpaState.fromStr st = Except.ok w) ∧
    (∀ prog iface st rest w, args = prog :: iface :: st :: rest →
      WpaState.fromStr st = Except.ok w →
      WpaEvent.fromArgs args = Except.ok ⟨iface, w, rest.head?⟩) ∧
    (args.length < 3 → (WpaEvent.fromArgs args).isOk = false) ∧
    (∀ s : String, (WpaState.fromStr s).isOk = true ↔
      s = "AP-ENABLED" ∨ s = "AP-DISABLED" ∨ s = "CONNECTED" ∨
      s = "AP-STA-CONNECTED" ∨ s = "AP-STA-DISCONNECTED" ∨ s = "DISCONNECTED") := by
  refine ⟨?_, ?_, ?_, ?_⟩
  · cases args with
    | nil => simp [WpaEvent.fromArgs, Except.isOk, Except.toBool]
    | cons a t =>
      cases t with
      | nil => simp [WpaEvent.fromArgs, Except.isOk, Except.toBool]
      | cons b t2 =>
        cases t2 with
        | nil => simp [WpaEvent.fromArgs, Except.isOk, Except.toBool]
        | cons c t3 =>
          cases hw : WpaState.fromStr c with
          | ok w => simp [WpaEvent.fromArgs, hw, Except.isOk, Except.toBool]
          | error e => simp [WpaEvent.fromArgs, hw, Except.isOk, Except.toBool]
  · intro prog iface st rest w harg hw
    subst harg
    simp [WpaEvent.fromArgs, hw]
  · intro h
    cases args with
    | nil => rfl
    | cons a t =>
      cases t with
      | nil => rfl
      | cons b t2 =>
        cases t2 with
        | nil => rfl
        | cons c t3 => simp at h; omega
  · intro s
    unfold WpaState.fromStr
    split <;> simp_all [Except.isOk, Except.toBool]

/-- Witness for C8 at a concrete invocation. -/
theorem from_args_contract_witness :
    WpaEvent.fromArgs ["autoap", "wlan0", "AP-STA-CONNECTED", "aa:bb:cc:dd:ee:ff"] =
      Except.ok ⟨"wlan0", .apStaConnected, some "aa:bb:cc:dd:ee:ff"⟩ :=
  (from_args_contract _).2.1 "autoap" "wlan0" "AP-STA-CONNECTED"
    ["aa:bb:cc:dd:ee:ff"] .apStaConnected rfl rfl

/-! ## C10: wire-token roundtrip -/

/-- C10: for every `WpaState` variant, its textual wire form round-trips
through `WpaState::from_str`, and the `Display` form of each variant is
exactly the wire token the parser accepts for it. -/
theorem wire_token_roundtrip :
    (∀ w : WpaState, WpaState.fromStr (WpaState.toWireString w) = Except.ok w) ∧
    (∀ (t : String) (w : WpaState),
      WpaState.fromStr t = Except.ok w → WpaState.toWireString w = t) := by
  constructor
  · intro w; cases w <;> rfl
  · intro t w h
    unfold WpaState.fromStr at h
    split at h <;> first
      | (injection h with h2; subst h2; rfl)
      | (injection h)

/-- Witness for C10 at a concrete token. -/
theorem wire_token_roundtrip_witness :
    WpaState.fromStr "DISCONNECTED" = Except.ok WpaState.disconnected ∧
    WpaState.toWireString WpaState.disconnected = "DISCONNECTED" :=
  ⟨rfl, wire_token_roundtrip.2 "DISCONNECTED" WpaState.disconnected rfl⟩
